import Mathlib

/-!
Verification development for the graphrag-server reference-annotation
subsystem and tolerant record-resolution layer.

The definitions below are a shallow embedding of the Python sources:
 * `webserver/utils/refer.py`      — citation parsing and link rendering
 * `webserver/search/indexdata.py` — per-kind record resolution
 * `webserver/search/base.py`      — search dispatcher and streaming
 * `webserver/main.py`             — streaming chat-completion wrapper

Modelling conventions:
 * Python strings are Lean `String`s, scanned as `List Char`.
 * The regexes in `refer.py` are embedded as deterministic recursive-descent
   scanners; each piece mirrors one regex construct.  For these particular
   patterns greedy maximal-munch is equivalent to Python's backtracking
   because every adjacent pair of constructs draws from disjoint character
   sets (argued construct-by-construct in the comments).
 * `\w`, `\s`, `\d` and `str.isdigit`/`int()` are modelled over ASCII; the
   claims under verification only involve ASCII text.
 * pandas DataFrames are `Table`s: a column list, the set of integer-dtype
   columns, and rows as association lists from column name to cell value.
 * Python exceptions are explicit: fallible bodies return `Except String`,
   and every `try/except` boundary in the source appears as a `match` on
   that `Except`.
 * Calls into the external `graphrag` library (`read_indexer_*`,
   `api.*_search*`) are out of scope of the repository and are passed in as
   oracle parameters describing one possible behaviour (return value or
   raised exception) of the external call.
-/

/-! ## Character classes and small string utilities (Python `re` / `str`) -/

/-- `\w` (ASCII fragment): letters, digits, underscore. -/
def isWordChar (c : Char) : Bool := c.isAlphanum || c = '_'

/-- `\s` (ASCII fragment): space, tab, newline, CR, VT, FF. -/
def isSpaceChar (c : Char) : Bool :=
  c = ' ' || c = '\t' || c = '\n' || c = '\x0d' || c = '\x0b' || c = '\x0c'

/-- `[\d\s,]`: the id-list character class of the citation pattern. -/
def isIdListChar (c : Char) : Bool := c.isDigit || isSpaceChar c || c = ','

/-- Maximal munch of a character class: `(taken, rest)`. -/
def munch (p : Char → Bool) : List Char → List Char × List Char
  | [] => ([], [])
  | c :: cs =>
    if p c then
      let r := munch p cs
      (c :: r.1, r.2)
    else ([], c :: cs)

/-- Python `str.strip()` (ASCII whitespace). -/
def stripChars (s : List Char) : List Char :=
  ((s.dropWhile isSpaceChar).reverse.dropWhile isSpaceChar).reverse

/-- Python `str.split(',')`. -/
def splitComma : List Char → List (List Char)
  | [] => [[]]
  | c :: cs =>
    if c = ',' then [] :: splitComma cs
    else
      match splitComma cs with
      | [] => [[c]]
      | t :: ts => (c :: t) :: ts

/-- Python `str.isdigit()` (ASCII): non-empty and all digits. -/
def isDigitStr (s : List Char) : Bool := !s.isEmpty && s.all Char.isDigit

/-- Python `int(s)` on a string: optional surrounding whitespace, optional
sign, then digits; `none` models the `ValueError` raised otherwise. -/
def toIntOpt (s : String) : Option Int :=
  match stripChars s.data with
  | [] => none
  | c :: rest =>
    let digits := if c = '-' || c = '+' then rest else c :: rest
    if digits.isEmpty || !digits.all Char.isDigit then none
    else
      let n : Nat := digits.foldl (fun a d => a * 10 + (d.toNat - 48)) 0
      some (if c = '-' then -(n : Int) else (n : Int))

/-- Does `needle` occur at the head of `hay`? -/
def listStartsWith : List Char → List Char → Bool
  | [], _ => true
  | _ :: _, [] => false
  | a :: la, b :: lb => a = b && listStartsWith la lb

/-- Python `needle in hay` on strings (substring test). -/
def hasSub (needle : List Char) : List Char → Bool
  | [] => needle.isEmpty
  | c :: cs => listStartsWith needle (c :: cs) || hasSub needle cs

/-- Python `str.lower()` (ASCII). -/
def toLowerStr (s : List Char) : String := String.mk (s.map Char.toLower)

/-- Python `str.capitalize()`: first char upper-cased, the rest lower-cased. -/
def pyCapitalize (s : String) : String :=
  match s.data with
  | [] => ""
  | c :: cs => String.mk (c.toUpper :: cs.map Char.toLower)

/-! ## The citation pattern of `refer.py`

Outer pattern: `\[\^?Data:(?:\s*(\w+)\s*\(([\d\s,]+(?:\+\w+)?)\)(?:[,;]\s*)?)+\]`
Inner item pattern: `(\w+)\s*\(([\d\s,]+(?:\+\w+)?)\)` -/

/-- Anchored parse of one item `(\w+)\s*\(([\d\s,]+(?:\+\w+)?)\)`:
returns `(group1, group2, rest)`.  Greediness notes: `\w+` is followed by
`\s*\(` and `\w`, `\s`, `(` are pairwise disjoint, so maximal munch equals
the backtracking semantics; likewise `[\d\s,]+` is disjoint from `+` and
`)`, and when `\+\w+` is present but not followed by `)` the Python engine
also fails (dropping the optional suffix leaves a `+` where `)` is
required). -/
def parseItemCore (s : List Char) : Option (List Char × List Char × List Char) :=
  let mw := munch isWordChar s
  if mw.1.isEmpty then none
  else
    let ms := munch isSpaceChar mw.2
    match ms.2 with
    | '(' :: s3 =>
      let mi := munch isIdListChar s3
      if mi.1.isEmpty then none
      else
        -- optional `\+\w+` elision suffix, kept inside group 2
        let withSuffix :=
          match mi.2 with
          | '+' :: s4 =>
            let mw2 := munch isWordChar s4
            if mw2.1.isEmpty then (mi.1, mi.2) else (mi.1 ++ '+' :: mw2.1, mw2.2)
          | _ => (mi.1, mi.2)
        match withSuffix.2 with
        | ')' :: s6 => some (mw.1, withSuffix.1, s6)
        | _ => none
    | _ => none

/-- One repetition of the outer pattern's group:
`\s*(\w+)\s*\(([\d\s,]+(?:\+\w+)?)\)(?:[,;]\s*)?`; returns the rest.
Consuming the optional separator is never worse than skipping it because a
following item starts with `\s*\w` and the closing `]` differs from `,`/`;`. -/
def parseItemGroup (s : List Char) : Option (List Char) :=
  let ms := munch isSpaceChar s
  match parseItemCore ms.2 with
  | none => none
  | some r =>
    match r.2.2 with
    | c :: s3 =>
      if c = ',' || c = ';' then some (munch isSpaceChar s3).2
      else some (c :: s3)
    | [] => some []

/-- Iterate further item groups (the `+` of the outer pattern) until one
fails to parse; fuelled by the input length (each group consumes at least
the parentheses, so the fuel never runs out before the input does). -/
def parseMoreGroups : Nat → List Char → List Char
  | 0, s => s
  | fuel + 1, s =>
    match parseItemGroup s with
    | none => s
    | some s2 => parseMoreGroups fuel s2

/-- Anchored match of the full outer pattern at the head of `s`; returns the
length of the match.  Fewer-iteration backtracking cannot rescue a failed
`]` because every item group starts with `\s*\w`, never `]`. -/
def parseMarkerAt (s : List Char) : Option Nat :=
  match s with
  | '[' :: s1 =>
    -- `\^?`: greedy, and `^` is disjoint from the following literal `D`
    let s2 := match s1 with
      | '^' :: r => r
      | _ => s1
    if s2.take 5 = ['D', 'a', 't', 'a', ':'] then
      match parseItemGroup (s2.drop 5) with
      | none => none
      | some s4 =>
        match parseMoreGroups s4.length s4 with
        | ']' :: s6 => some (s.length - s6.length)
        | _ => none
    else none
  | _ => none

/-- `pattern.finditer`: left-to-right non-overlapping scan, resuming after
each match; fuelled by the input length (every step consumes a character). -/
def findMarkersAux : Nat → List Char → List (List Char)
  | 0, _ => []
  | fuel + 1, s =>
    match s with
    | [] => []
    | _ :: rest =>
      match parseMarkerAt s with
      | some n => s.take n :: findMarkersAux fuel (s.drop n)
      | none => findMarkersAux fuel rest

def findMarkers (s : List Char) : List (List Char) := findMarkersAux s.length s

/-- `re.finditer` of the inner item pattern over one full marker match:
yields `(group1, group2)` pairs. -/
def findItemsAux : Nat → List Char → List (List Char × List Char)
  | 0, _ => []
  | fuel + 1, s =>
    match s with
    | [] => []
    | _ :: rest =>
      match parseItemCore s with
      | some r => (r.1, r.2.1) :: findItemsAux fuel r.2.2
      | none => findItemsAux fuel rest

def findItems (s : List Char) : List (List Char × List Char) := findItemsAux s.length s

/-- `re.sub(r'\+\w+', '', id_text)`: left-to-right removal of every
`\+\w+` occurrence; fuelled by the input length. -/
def removePlusWordF : Nat → List Char → List Char
  | 0, s => s
  | _ + 1, [] => []
  | fuel + 1, c :: cs =>
    if c = '+' then
      match munch isWordChar cs with
      | ([], _) => c :: removePlusWordF fuel cs
      | (_ :: _, r) => removePlusWordF fuel r
    else c :: removePlusWordF fuel cs

def removePlusWord (s : List Char) : List Char := removePlusWordF s.length s

/-- The `(kind, id)` pairs produced by `get_reference`'s nested loops, in
scan order: for each full marker match, for each item, for each cleaned,
stripped, all-digit id token. -/
def refPairs (text : String) : List (String × String) :=
  (findMarkers text.data).flatMap fun m =>
    (findItems m).flatMap fun item =>
      let k := toLowerStr item.1
      ((splitComma (removePlusWord item.2)).map stripChars).filterMap fun idc =>
        if isDigitStr idc then some (k, String.mk idc) else none

/-- `defaultdict(set)` insertion: the key list keeps first-occurrence
order (dict insertion order); ids of one kind are kept deduplicated, in
insertion order (Python's `set` contents; its iteration order is
unspecified and is modelled here as insertion order). -/
def insertRef (acc : List (String × List String)) (k i : String) :
    List (String × List String) :=
  match acc with
  | [] => [(k, [i])]
  | (k2, is2) :: rest =>
    if k2 = k then (k2, if i ∈ is2 then is2 else is2 ++ [i]) :: rest
    else (k2, is2) :: insertRef rest k i

/-- `get_reference(text)` of `webserver/utils/refer.py`. -/
def get_reference (text : String) : List (String × List String) :=
  (refPairs text).foldl (fun acc p => insertRef acc p.1 p.2) []

/-! ## `generate_ref_links` of `refer.py` -/

/-- One reference-definition line of `generate_ref_links`. -/
def refLine (base_url index_id key value : String) : String :=
  "[^Data:" ++ pyCapitalize key ++ "(" ++ value ++ ")]: [" ++ pyCapitalize key ++
    ": " ++ value ++ "](" ++ base_url ++ "/" ++ index_id ++ "/" ++ key ++ "/" ++ value ++ ")"

/-- The `lines` list built by the two nested `for` loops. -/
def refLinesList (refBase index_id : String) (data : List (String × List String)) :
    List String :=
  let base_url := refBase ++ "/v1/references"
  data.foldl (fun acc p => p.2.foldl (fun acc2 v => acc2 ++ [refLine base_url index_id p.1 v]) acc) []

/-- `generate_ref_links(data, index_id)`; `refBase` stands for
`settings.reference_url_base` (environment-derived). -/
def generate_ref_links (refBase : String) (data : List (String × List String))
    (index_id : String) : String :=
  String.intercalate "\n" (refLinesList refBase index_id data)

/-! ## Tables (pandas DataFrames) -/

/-- One stored cell: string, integer, NaN/missing, or an array-valued cell
(array elements are optional strings; `none` models a NaN element). -/
inductive CellV
  | vstr (s : String)
  | vint (n : Int)
  | vnan
  | varr (l : List (Option String))
deriving DecidableEq, Repr

/-- A loaded DataFrame: column names, the subset of columns whose pandas
dtype is `int64`/`int32`, and the rows (association lists from column name
to cell; a row carries one entry per table column). -/
structure Table where
  cols : List String
  intCols : List String
  rows : List (List (String × CellV))
deriving DecidableEq, Repr

abbrev Row := List (String × CellV)

def getCell (r : Row) (c : String) : Option CellV :=
  (r.find? (fun p => p.1 == c)).map (fun p => p.2)

/-- Python `field in row` on a pandas row. -/
def hasField (r : Row) (c : String) : Bool := (getCell r c).isSome

/-- `pd.isna` on a scalar cell. -/
def isNaCell : CellV → Bool
  | .vnan => true
  | _ => false

/-- `df[col].astype(str)` / `str(cell)` rendering of one cell.  A missing
entry renders like NaN; the exact text of an array cell is abbreviated
(no verified claim involves rendering an array-valued cell). -/
def cellToStr : Option CellV → String
  | none => "nan"
  | some (.vstr s) => s
  | some (.vint n) => toString n
  | some .vnan => "nan"
  | some (.varr _) => "[array]"

/-- The guard used for optional record fields: for an array-valued cell
`not pd.isna(v).all()`, for a scalar `not pd.isna(v)`. -/
def keepCell : CellV → Bool
  | .varr l => !(l.all Option.isNone)
  | v => !(isNaCell v)

/-- Collect the optional fields a record builder copies from a row, in
field order, applying `keepCell`. -/
def collectOpt (fields : List String) (r : Row) : List (String × CellV) :=
  fields.filterMap fun f =>
    match getCell r f with
    | some v => if keepCell v then some (f, v) else none
    | none => none

/-- `df[df[c].astype(str) == str(id)]`: rows whose cell in column `c`
renders string-equal to the requested id. -/
def strColMatches (t : Table) (c : String) (id : String) : List Row :=
  t.rows.filter (fun r => cellToStr (getCell r c) == id)

/-- The `try: int_id = int(id); if df[c].dtype in (int64, int32):
df[df[c] == int_id]` step (a `ValueError` from `int(id)` is swallowed). -/
def intMatchStep (t : Table) (c : String) (id : String) : List Row :=
  match toIntOpt id with
  | none => []
  | some n => if c ∈ t.intCols then t.rows.filter (fun r => getCell r c == some (.vint n)) else []

/-- The raw-row fallback scan shared by the `except` handlers: the first
row one of whose candidate id fields renders string-equal to the id. -/
def fallbackRowScan (rows : List Row) (fields : List String) (id : String) : Option Row :=
  rows.find? (fun r => fields.any (fun f => hasField r f && cellToStr (getCell r f) == id))

/-- Result of a call into the external `graphrag` library: a return value
or a raised exception with its message. -/
inductive ExtResult (α : Type)
  | ok (a : α)
  | exn (msg : String)
deriving DecidableEq, Repr

deriving instance DecidableEq for Except

/-! ## Record types (graphrag data-model objects, display fields)

The builders below copy what the Python code passes to the corresponding
constructor; raw cell values that Python stores unrendered are normalised
to display text with `cellToStr` (the HTML layer renders them to text
anyway).  The source's `type` attribute is the field `etype`. -/

structure Entity where
  id : String
  short_id : String
  title : String
  description : String
  etype : String
  opt : List (String × CellV) := []
deriving DecidableEq, Repr

structure TextUnit where
  id : String
  short_id : String
  text : String
  opt : List (String × CellV) := []
deriving DecidableEq, Repr

structure CommunityReport where
  id : String
  short_id : String
  community_id : String
  summary : String
  title : String
  opt : List (String × CellV) := []
deriving DecidableEq, Repr

structure Relationship where
  id : String
  short_id : String
  source : String
  target : String
  description : String
  opt : List (String × CellV) := []
deriving DecidableEq, Repr

/-- `get_document` returns a plain dict; beyond `id`/`short_id` all fields
live in `opt` (the JSON pretty-printing of a `metadata` cell is a
formatting detail not modelled). -/
structure DocumentData where
  id : String
  short_id : String
  opt : List (String × CellV) := []
deriving DecidableEq, Repr

/-- Stand-in text for the exception raised when a table file is absent or
unreadable (`pd.read_parquet`): the exact message is environment-specific. -/
def readFailMsg (tbl : String) : String := "could not read table " ++ tbl

/-! ## `get_entity` (`indexdata.py`) -/

/-- The column scan `for col in df.columns: if 'id' in col.lower() and col
not in ['id','short_id']`, taking the first such column with matches. -/
def otherIdColRows (t : Table) (id : String) : List Row :=
  match t.cols.find? (fun c =>
      hasSub ['i', 'd'] (c.data.map Char.toLower) && !(c == "id") && !(c == "short_id") &&
      !(strColMatches t c id).isEmpty) with
  | some c => strColMatches t c id
  | none => []

/-- The direct DataFrame lookup of `get_entity` (string id, integer id,
string short_id, integer short_id, then other id-like columns). -/
def entityDirectRows (t : Table) (id : String) : List Row :=
  let m := strColMatches t "id" id
  let m := if m.isEmpty then intMatchStep t "id" id else m
  let m := if m.isEmpty && "short_id" ∈ t.cols then
      let s := strColMatches t "short_id" id
      if s.isEmpty then intMatchStep t "short_id" id else s
    else m
  if m.isEmpty then otherIdColRows t id else m

/-- Entity built from a directly matched row (`entity_attrs`). -/
def buildEntityFromRow (r : Row) (id : String) : Entity :=
  { id := cellToStr (getCell r "id")
  , short_id := id
  , title := if hasField r "title" then cellToStr (getCell r "title") else "No Title"
  , description := if hasField r "description" then cellToStr (getCell r "description") else ""
  , etype := if hasField r "type" then cellToStr (getCell r "type") else "unknown"
  , opt := collectOpt ["text_unit_ids"] r }

/-- `custom_read_entities`: one entity per row (the per-row `except ...
continue` never fires in this model since construction is total). -/
def custom_read_entities (t : Table) : List Entity :=
  if "id" ∈ t.cols then
    t.rows.enum.map fun p =>
      { id := cellToStr (getCell p.2 "id")
      , short_id := if hasField p.2 "short_id" then cellToStr (getCell p.2 "short_id")
          else toString p.1
      , title := if hasField p.2 "title" then cellToStr (getCell p.2 "title")
          else "Entity " ++ cellToStr (getCell p.2 "id")
      , description := match getCell p.2 "description" with
          | some v => if keepCell v then cellToStr (some v) else ""
          | none => ""
      , etype := if hasField p.2 "type" then cellToStr (getCell p.2 "type") else "entity"
      , opt := collectOpt ["text_unit_ids"] p.2 }
  else []

/-- Oracle for `read_indexer_entities`: a returned list, the specifically
handled `KeyError` mentioning `entity_ids` (logged and swallowed), or any
other exception (propagates to the adapter `except` handler). -/
inductive EntOracle
  | ret (l : List Entity)
  | keyErrorEntityIds
  | exn (msg : String)
deriving DecidableEq, Repr

/-- `for x in xs: if int(x.short_id) == int(id): return x` — the `int()`
conversions are unguarded, so a non-numeric value raises out of the loop. -/
def intLoopBy {α : Type} (shortOf : α → String) : List α → String → Except String (Option α)
  | [], _ => .ok none
  | x :: rest, id =>
    match toIntOpt (shortOf x) with
    | none => .error "invalid literal for int()"
    | some a =>
      match toIntOpt id with
      | none => .error "invalid literal for int()"
      | some b => if a = b then .ok (some x) else intLoopBy shortOf rest id

/-- The adapter `try` block of `get_entity` (custom adapter, optional
official adapter, then the two matching loops); `.error` models an
exception escaping to the adapter `except` handler. -/
def entityAdapterPhase (o : EntOracle) (t : Table) (id : String) :
    Except String (Option Entity) := do
  let ents := custom_read_entities t
  let ents ← if ents.isEmpty then
      match o with
      | .ret l => pure l
      | .keyErrorEntityIds => pure ents
      | .exn m => throw m
    else pure ents
  match ← intLoopBy Entity.short_id ents id with
  | some e => return some e
  | none => return ents.find? (fun e => e.id == id)

/-- The adapter `except` handler of `get_entity`: raw-row scan over
`['id','short_id','entity_id']`, then the default `not_found` entity;
`none` when the DataFrame is empty (the handler then falls through to the
final `raise`). -/
def entityFallback (t : Table) (id : String) : Option Entity :=
  if t.rows.isEmpty then none
  else
    match fallbackRowScan t.rows ["id", "short_id", "entity_id"] id with
    | some r => some
        { id := if hasField r "id" then cellToStr (getCell r "id") else id
        , short_id := id
        , title := if hasField r "title" then cellToStr (getCell r "title") else id
        , description := if hasField r "description" then cellToStr (getCell r "description") else ""
        , etype := if hasField r "type" then cellToStr (getCell r "type") else "entity" }
    | none => some
        { id := "not_found"
        , short_id := id
        , title := "Entity " ++ id ++ " (Data available but not matched)"
        , description := "Entity data could not be matched by ID but data exists"
        , etype := "unknown" }

/-- Body of `get_entity` inside its outer `try`; `.error` models the
exception reaching the outer handler. -/
def getEntityBody (o : EntOracle) (t? : Option Table) (id : String) :
    Except String Entity := do
  let t ← match t? with
    | none => throw (readFailMsg "entities")
    | some t => pure t
  if "id" ∈ t.cols then
    match (entityDirectRows t id).head? with
    | some r => return buildEntityFromRow r id
    | none => pure ()
  match entityAdapterPhase o t id with
  | .ok (some e) => return e
  | .ok none => throw ("Not Found entity id " ++ id)
  | .error _ =>
    match entityFallback t id with
    | some e => return e
    | none => throw ("Not Found entity id " ++ id)

/-- The error placeholder of `get_entity`'s outer `except` handler. -/
def errorEntity (msg : String) : Entity :=
  { id := "error"
  , short_id := "0"
  , title := "Error: " ++ msg
  , description := "Could not load entity data. Check server logs for details."
  , etype := "error" }

def get_entity (o : EntOracle) (t? : Option Table) (id : String) : Entity :=
  match getEntityBody o t? id with
  | .ok e => e
  | .error msg => errorEntity msg

/-! ## `get_source` (`indexdata.py`) -/

/-- Direct DataFrame lookup of `get_source`: exact string match on `id`,
then string match on `short_id` when that column exists. -/
def sourceDirectRows (t : Table) (id : String) : List Row :=
  let m := strColMatches t "id" id
  if m.isEmpty && "short_id" ∈ t.cols then strColMatches t "short_id" id else m

/-- TextUnit built from a directly matched row (`text_unit_attrs`). -/
def buildTextUnitFromRow (r : Row) (id : String) : TextUnit :=
  { id := cellToStr (getCell r "id")
  , short_id := id
  , text := if hasField r "text" then cellToStr (getCell r "text") else "No Text"
  , opt := collectOpt ["n_tokens", "document_ids", "entity_ids", "relationship_ids",
      "covariate_ids"] r }

/-- Adapter `try` block of `get_source`: `read_indexer_text_units` (the
oracle), then a string-id loop and a per-element guarded integer loop
(its `ValueError`/`TypeError` is swallowed per element). -/
def sourceAdapterPhase (o : ExtResult (List TextUnit)) (id : String) :
    Except String (Option TextUnit) :=
  match o with
  | .exn m => .error m
  | .ok units =>
    if units.isEmpty then .ok none
    else
      match units.find? (fun u => u.id == id) with
      | some u => .ok (some u)
      | none =>
        .ok (units.find? (fun u =>
          match toIntOpt u.short_id, toIntOpt id with
          | some a, some b => a == b
          | _, _ => false))

/-- Adapter `except` handler of `get_source`. -/
def sourceFallback (t : Table) (id : String) : Option TextUnit :=
  if t.rows.isEmpty then none
  else
    match fallbackRowScan t.rows ["id", "short_id", "text_unit_id"] id with
    | some r => some
        { id := if hasField r "id" then cellToStr (getCell r "id") else id
        , short_id := id
        , text := if hasField r "text" then cellToStr (getCell r "text")
            else "Text unit " ++ id }
    | none => some
        { id := "not_found"
        , short_id := id
        , text := "Text unit " ++ id ++ " (Data available but not matched)" }

def getSourceBody (o : ExtResult (List TextUnit)) (t? : Option Table) (id : String) :
    Except String TextUnit := do
  let t ← match t? with
    | none => throw (readFailMsg "text_units")
    | some t => pure t
  if "id" ∈ t.cols then
    match (sourceDirectRows t id).head? with
    | some r => return buildTextUnitFromRow r id
    | none => pure ()
  match sourceAdapterPhase o id with
  | .ok (some u) => return u
  | .ok none => throw ("Not Found source id " ++ id)
  | .error _ =>
    match sourceFallback t id with
    | some u => return u
    | none => throw ("Not Found source id " ++ id)

def errorTextUnit (msg : String) : TextUnit :=
  { id := "error"
  , short_id := "0"
  , text := "Error: " ++ msg ++ "\nCould not load source data. Check server logs for details." }

def get_source (o : ExtResult (List TextUnit)) (t? : Option Table) (id : String) : TextUnit :=
  match getSourceBody o t? id with
  | .ok u => u
  | .error msg => errorTextUnit msg

/-! ## `get_report` (`indexdata.py`) -/

/-- Models `isinstance(id, int)` inside `get_report`: all ids reaching it
through the public lookup interface (`get_index_data`, which receives the
HTTP path parameter `id: str` and performs "no conversion to int") are
Python `str` values, so the check is `False`. -/
def pyIsInstInt (_ : String) : Bool := false

/-- Direct DataFrame lookup of `get_report`: string id, integer id,
string `short_id`, string `human_readable_id`, then the positional-index
last resort — whose guard `isinstance(id, int)` never holds for the
string ids of the public interface (dead branch, modelled for
completeness). -/
def reportDirectRows (t : Table) (id : String) : List Row :=
  let m := strColMatches t "id" id
  let m := if m.isEmpty then intMatchStep t "id" id else m
  let m := if m.isEmpty && "short_id" ∈ t.cols then strColMatches t "short_id" id else m
  let m := if m.isEmpty && "human_readable_id" ∈ t.cols then
      strColMatches t "human_readable_id" id
    else m
  if m.isEmpty && pyIsInstInt id then
    match toIntOpt id with
    | some n => if 0 ≤ n && n < (t.rows.length : Int) then (t.rows.drop n.toNat).take 1 else m
    | none => m
  else m

/-- The positional-free part of `get_report`'s direct lookup (strategies
string id, integer id, `short_id`, `human_readable_id` only). -/
def reportDirectRowsNoPos (t : Table) (id : String) : List Row :=
  let m := strColMatches t "id" id
  let m := if m.isEmpty then intMatchStep t "id" id else m
  let m := if m.isEmpty && "short_id" ∈ t.cols then strColMatches t "short_id" id else m
  if m.isEmpty && "human_readable_id" ∈ t.cols then
    strColMatches t "human_readable_id" id
  else m

/-- The title logic of `report_dict`: `row.get("title", f"Report {id}")`
guarded by a NaN check (array-valued titles, which would make `pd.isna`
ambiguous, are not modelled). -/
def reportTitle (r : Row) : String :=
  match getCell r "title" with
  | some v => if isNaCell v then "Report " ++ cellToStr (getCell r "id") else cellToStr (some v)
  | none => "Report " ++ cellToStr (getCell r "id")

/-- CommunityReport built from a directly matched row (`report_dict`);
the constant `attributes: {}` field is omitted from the model. -/
def buildReportFromRow (r : Row) (id : String) : CommunityReport :=
  { id := cellToStr (getCell r "id")
  , short_id := id
  , community_id := if hasField r "community" then cellToStr (getCell r "community") else ""
  , summary := match getCell r "summary" with
      | some v => if keepCell v then cellToStr (some v) else ""
      | none => ""
  , title := reportTitle r
  , opt := collectOpt ["full_content", "rank", "size", "period"] r }

/-- Adapter `try` block of `get_report`: `read_indexer_reports` (oracle),
unguarded integer loop, then string-id loop. -/
def reportAdapterPhase (o : ExtResult (List CommunityReport)) (id : String) :
    Except String (Option CommunityReport) := do
  match o with
  | .exn m => throw m
  | .ok reports =>
    match ← intLoopBy CommunityReport.short_id reports id with
    | some r => return some r
    | none => return reports.find? (fun r => r.id == id)

/-- Adapter `except` handler of `get_report`. -/
def reportFallback (t : Table) (id : String) : Option CommunityReport :=
  if t.rows.isEmpty then none
  else
    match fallbackRowScan t.rows ["id", "short_id", "report_id"] id with
    | some r => some
        { id := if hasField r "id" then cellToStr (getCell r "id") else id
        , short_id := id
        , community_id := if hasField r "community" then cellToStr (getCell r "community") else ""
        , summary := match getCell r "summary" with
            | some v => if isNaCell v then "Report " ++ id else cellToStr (some v)
            | none => "Report " ++ id
        , title := "Report " ++ id }
    | none => some
        { id := "not_found"
        , short_id := id
        , community_id := "unknown"
        , summary := "Report " ++ id ++ " (Data available but not matched)"
        , title := "Report " ++ id }

def getReportBody (o : ExtResult (List CommunityReport)) (t? : Option Table) (id : String) :
    Except String CommunityReport := do
  let t ← match t? with
    | none => throw (readFailMsg "community_reports")
    | some t => pure t
  if "id" ∈ t.cols then
    match (reportDirectRows t id).head? with
    | some r => return buildReportFromRow r id
    | none => pure ()
  match reportAdapterPhase o id with
  | .ok (some r) => return r
  | .ok none => throw ("Not Found report id " ++ id)
  | .error _ =>
    match reportFallback t id with
    | some r => return r
    | none => throw ("Not Found report id " ++ id)

/-- The error placeholder of `get_report` (its title interpolates the
requested id). -/
def errorReport (msg id : String) : CommunityReport :=
  { id := "error"
  , short_id := "0"
  , community_id := "error"
  , summary := "Error: " ++ msg ++ "\nCould not load report data. Check server logs for details."
  , title := "Report " ++ id }

def get_report (o : ExtResult (List CommunityReport)) (t? : Option Table) (id : String) :
    CommunityReport :=
  match getReportBody o t? id with
  | .ok r => r
  | .error msg => errorReport msg id

/-! ## `get_relationship` (`indexdata.py`) -/

/-- Direct DataFrame lookup of `get_relationship` (string id, then string
`short_id`). -/
def relationshipDirectRows (t : Table) (id : String) : List Row :=
  let m := strColMatches t "id" id
  if m.isEmpty && "short_id" ∈ t.cols then strColMatches t "short_id" id else m

/-- Relationship built from a directly matched row (`rel_attrs`). -/
def buildRelationshipFromRow (r : Row) (id : String) : Relationship :=
  { id := cellToStr (getCell r "id")
  , short_id := id
  , source := if hasField r "source" then cellToStr (getCell r "source") else "unknown"
  , target := if hasField r "target" then cellToStr (getCell r "target") else "unknown"
  , description := match getCell r "description" with
      | some v => if isNaCell v then "" else cellToStr (some v)
      | none => ""
  , opt := collectOpt ["weight", "text_unit_ids"] r }

/-- Adapter `try` block of `get_relationship`. -/
def relationshipAdapterPhase (o : ExtResult (List Relationship)) (id : String) :
    Except String (Option Relationship) := do
  match o with
  | .exn m => throw m
  | .ok rels =>
    match ← intLoopBy Relationship.short_id rels id with
    | some r => return some r
    | none => return rels.find? (fun r => r.id == id)

/-- Adapter `except` handler of `get_relationship` (the float default
`weight=0.0` of the basic object is modelled as the integer cell `0`;
floating point is otherwise not modelled). -/
def relationshipFallback (t : Table) (id : String) : Option Relationship :=
  if t.rows.isEmpty then none
  else
    match fallbackRowScan t.rows ["id", "short_id", "relationship_id"] id with
    | some r => some
        { id := if hasField r "id" then cellToStr (getCell r "id") else id
        , short_id := id
        , source := if hasField r "source" then cellToStr (getCell r "source") else "unknown"
        , target := if hasField r "target" then cellToStr (getCell r "target") else "unknown"
        , description := if hasField r "description" then cellToStr (getCell r "description") else ""
        , opt := [("weight", match getCell r "weight" with
            | some v => v
            | none => .vint 0)] }
    | none => some
        { id := "not_found"
        , short_id := id
        , source := "unknown"
        , target := "unknown"
        , description := "Relationship " ++ id ++ " (Data available but not matched)"
        , opt := [("weight", .vint 0)] }

def getRelationshipBody (o : ExtResult (List Relationship)) (t? : Option Table) (id : String) :
    Except String Relationship := do
  let t ← match t? with
    | none => throw (readFailMsg "relationships")
    | some t => pure t
  if "id" ∈ t.cols then
    match (relationshipDirectRows t id).head? with
    | some r => return buildRelationshipFromRow r id
    | none => pure ()
  match relationshipAdapterPhase o id with
  | .ok (some r) => return r
  | .ok none => throw ("Not Found relationship id " ++ id)
  | .error _ =>
    match relationshipFallback t id with
    | some r => return r
    | none => throw ("Not Found relationship id " ++ id)

def errorRelationship (msg : String) : Relationship :=
  { id := "error"
  , short_id := "0"
  , source := "error"
  , target := "error"
  , description := "Error: " ++ msg ++
      "\nCould not load relationship data. Check server logs for details."
  , opt := [("weight", .vint 0)] }

def get_relationship (o : ExtResult (List Relationship)) (t? : Option Table) (id : String) :
    Relationship :=
  match getRelationshipBody o t? id with
  | .ok r => r
  | .error msg => errorRelationship msg

/-! ## `get_document` (`indexdata.py`) -/

def documentOptFields : List String :=
  ["human_readable_id", "title", "text", "text_unit_ids", "creation_date", "metadata"]

/-- The `not found` dict of `get_document`. -/
def notFoundDocument (id : String) : DocumentData :=
  { id := "not_found"
  , short_id := id
  , opt := [("title", .vstr ("Document " ++ id)),
            ("text", .vstr ("Document with ID " ++ id ++ " not found in the database."))] }

/-- `get_document` matches only the `id` column (exact string match); on
no match it returns the `not_found` dict, on a missing `id` column the
structure-error dict, and the outer handler catches read failures. -/
def getDocumentBody (t? : Option Table) (id : String) : Except String DocumentData := do
  let t ← match t? with
    | none => throw (readFailMsg "documents")
    | some t => pure t
  if "id" ∈ t.cols then
    match (strColMatches t "id" id).head? with
    | some r => return { id := cellToStr (getCell r "id")
                       , short_id := id
                       , opt := collectOpt documentOptFields r }
    | none => return notFoundDocument id
  else
    return { id := "error"
           , short_id := id
           , opt := [("title", .vstr "Error: Invalid Document Data"),
                     ("text", .vstr "The document data does not have the expected structure.")] }

def errorDocument (msg : String) : DocumentData :=
  { id := "error"
  , short_id := "0"
  , opt := [("title", .vstr ("Error: " ++ msg)),
            ("text", .vstr "Could not load document data. Check server logs for details.")] }

def get_document (t? : Option Table) (id : String) : DocumentData :=
  match getDocumentBody t? id with
  | .ok d => d
  | .error msg => errorDocument msg

/-! ## `get_index_data` (`indexdata.py`) -/

inductive AnyRecord
  | ent (e : Entity)
  | src (u : TextUnit)
  | rep (r : CommunityReport)
  | rel (r : Relationship)
  | doc (d : DocumentData)
deriving DecidableEq, Repr

/-- The datatype name a resolved record answers to. -/
def recKind : AnyRecord → String
  | .ent _ => "entities"
  | .src _ => "sources"
  | .rep _ => "reports"
  | .rel _ => "relationships"
  | .doc _ => "documents"

/-- Oracles for the external adapter calls of the five getters. -/
structure Oracles where
  entO : EntOracle
  srcO : ExtResult (List TextUnit)
  repO : ExtResult (List CommunityReport)
  relO : ExtResult (List Relationship)

/-- The data directory: which table file each kind resolves to (by the
table names of `webserver/utils/consts.py`), `none` when the file is
absent or unreadable. -/
def get_index_data (os : Oracles) (tableOf : String → Option Table) (datatype id : String) :
    Except String AnyRecord :=
  if datatype == "documents" then .ok (.doc (get_document (tableOf "documents") id))
  else if datatype == "sources" then .ok (.src (get_source os.srcO (tableOf "text_units") id))
  else if datatype == "entities" then .ok (.ent (get_entity os.entO (tableOf "entities") id))
  else if datatype == "reports" then
    .ok (.rep (get_report os.repO (tableOf "community_reports") id))
  else if datatype == "relationships" then
    .ok (.rel (get_relationship os.relO (tableOf "relationships") id))
  else .error ("Unknown datatype: " ++ datatype)

/-! ## Search dispatcher (`base.py`) and streaming wrapper (`main.py`) -/

/-- Strategy names (`webserver/utils/consts.py`). -/
def INDEX_LOCAL : String := "local"
def INDEX_GLOBAL : String := "global"
def INDEX_DRIFT : String := "drift"
def INDEX_BASIC : String := "basic"

/-- The loaded dataframe dictionary of `SearchEngineHandler.data`: keys are
table names; a key mapped to `none` is present in the dict with value
`None` (how `resolve_output_files` records a missing required table).
The bookkeeping keys (`multi-index`, ...) are irrelevant to the branch
conditions and omitted. -/
abbrev DataMap := List (String × Option Table)

/-- Python `name in self.data`. -/
def hasKey (d : DataMap) (k : String) : Bool := d.any (fun p => p.1 == k)

/-- Python `self.data[name]` (`none` both for an absent key and a `None`
value; the branch conditions below only combine it with `hasKey`). -/
def getVal (d : DataMap) (k : String) : Option Table :=
  match d.find? (fun p => p.1 == k) with
  | some p => p.2
  | none => none

/-- Python `k in self.data and self.data[k] is not None`. -/
def keyNotNone (d : DataMap) (k : String) : Bool := hasKey d k && (getVal d k).isSome

/-- The single-index branch of `resolve_output_files`: every listed table
name becomes a key; a table the storage lacks is recorded as `None`. -/
def resolve_output_files_single (storage : String → Option Table)
    (output_list optional_list : List String) : DataMap :=
  output_list.map (fun n => (n, storage n)) ++ optional_list.map (fun n => (n, storage n))

/-- The table lists `load_context` passes to `resolve_output_files`. -/
def loadContextOutputList : List String :=
  ["text_units", "entities", "communities", "community_reports", "relationships"]
def loadContextOptionalList : List String := ["documents"]

inductive SearchBranch
  | globalB
  | localB
  | driftB
  | basicB
  | notConfigured
deriving DecidableEq, Repr

/-- The branch selection shared verbatim by `SearchEngineHandler.search`
and `SearchEngineHandler.stream_search`: note that the `global` branch
tests only key membership (`consts.X_TABLE in self.data`), while the
`local` and `drift` branches additionally test `self.data[k] is not
None`; the `basic` branch tests membership and non-`None`. -/
def selectSearchBranch (engineType : String) (data : DataMap) : SearchBranch :=
  if engineType == INDEX_GLOBAL && hasKey data "entities" && hasKey data "communities" &&
      hasKey data "community_reports" then
    .globalB
  else if engineType == INDEX_LOCAL &&
      (["entities", "text_units", "relationships", "community_reports"].all
        (keyNotNone data)) then
    .localB
  else if engineType == INDEX_DRIFT &&
      (["entities", "communities", "community_reports", "text_units", "relationships"].all
        (keyNotNone data)) then
    .driftB
  else if keyNotNone data "text_units" then
    .basicB
  else
    .notConfigured

/-- One possible behaviour of the selected strategy's streaming api call:
the tokens it yields, then optionally an exception raised mid-stream. -/
structure StreamOracle where
  tokens : List String
  raises : Option String
deriving DecidableEq, Repr

/-- The not-configured message yielded by `stream_search`'s `else` branch. -/
def notConfiguredToken : String :=
  "Search engine is not properly configured. Please ensure text data is uploaded and configuration is correct."

/-- The single explanatory token yielded by `stream_search`'s `except`
handler. -/
def streamErrorToken (msg : String) : String := "Error during search: " ++ msg

/-- `SearchEngineHandler.stream_search` as the finite token sequence it
yields: the selected api call's tokens, an error token if that call
raised, or the not-configured message. -/
def stream_search (engineType : String) (data : DataMap) (o : StreamOracle) : List String :=
  match selectSearchBranch engineType data with
  | .notConfigured => [notConfiguredToken]
  | _ =>
    o.tokens ++ (match o.raises with
      | some msg => [streamErrorToken msg]
      | none => [])

/-- One server-sent event of `handle_stream_response`: a content chunk
(with its `Choice.index` and optional `finish_reason`), or the terminal
literal `data: [DONE]` event. -/
inductive SSEEvent
  | chunk (index : Nat) (content : String) (finish : Option String)
  | done
deriving DecidableEq, Repr

/-- The token loop of `wrapper_astream_search` (`main.py`), with its
mutable `token_index` and `full_response` accumulators: the first token
(`token_index == 0`) is skipped — neither yielded nor appended — and each
later token is yielded as a chunk with index `token_index - 1`.  Returns
the yielded events, the final `token_index`, and `full_response`. -/
def streamLoop : List String → Nat → String → List SSEEvent × Nat × String
  | [], tokenIndex, fullResp => ([], tokenIndex, fullResp)
  | t :: rest, tokenIndex, fullResp =>
    if tokenIndex = 0 then streamLoop rest 1 fullResp
    else
      let r := streamLoop rest (tokenIndex + 1) (fullResp ++ t)
      (SSEEvent.chunk (tokenIndex - 1) t none :: r.1, r.2)

/-- The content of the final chunk: the rendered references block when
citations were found and `settings.show_references` is set. -/
def streamFinalContent (showRefs : Bool) (refBase model fullResponse : String) : String :=
  let reference := get_reference fullResponse
  if !reference.isEmpty && showRefs then
    "\n" ++ generate_ref_links refBase reference model
  else ""

/-- `wrapper_astream_search` of `handle_stream_response`: the skipped-first
token loop, then one final chunk carrying the references block with
`finish_reason='stop'` and index `token_index`, then the terminal
`data: [DONE]` event. -/
def wrapper_astream_search (tokens : List String) (showRefs : Bool) (refBase model : String) :
    List SSEEvent :=
  let r := streamLoop tokens 0 ""
  r.1 ++ [SSEEvent.chunk r.2.1 (streamFinalContent showRefs refBase model r.2.2) (some "stop"),
          SSEEvent.done]

def isDoneEvent : SSEEvent → Bool
  | .done => true
  | _ => false

/-! ## Derived definitions used by the statements -/

/-- First-occurrence order of a key sequence (dict insertion order). -/
def firstKeys (l : List String) : List String :=
  l.foldl (fun ks k => if k ∈ ks then ks else ks ++ [k]) []

/-- The content chunks for a token list, indexed from `i`. -/
def chunksFrom : Nat → List String → List SSEEvent
  | _, [] => []
  | i, t :: rest => SSEEvent.chunk i t none :: chunksFrom (i + 1) rest

/-- Concatenation of a token list (the accumulated `full_response`). -/
def joinStr : List String → String
  | [] => ""
  | t :: rest => t ++ joinStr rest

/-! ## Concrete instances used by the verification -/

/-- Entity table that loads fine: one row whose `id` is the non-numeric
string `abc` (so a requested numeric id matches nothing anywhere). -/
def TceC1 : Table := ⟨["id", "title"], [], [[("id", .vstr "abc"), ("title", .vstr "T")]]⟩

/-- Document table that loads fine, no row with id `5`. -/
def TdocC1 : Table :=
  ⟨["id", "title", "text"], [],
   [[("id", .vstr "abc"), ("title", .vstr "T"), ("text", .vstr "B")]]⟩

/-- Community-report table with two rows and no `short_id` /
`human_readable_id` columns; the id `1` is a valid zero-based row offset. -/
def TrepC5 : Table := ⟨["id"], [], [[("id", .vstr "aaa")], [("id", .vstr "bbb")]]⟩

/-- Document table carrying a `short_id` column whose sole row matches the
requested id `7` by `short_id` but not by `id`. -/
def TdocC6 : Table :=
  ⟨["id", "short_id", "title", "text"], [],
   [[("id", .vstr "xyz"), ("short_id", .vstr "7"), ("title", .vstr "Doc"),
     ("text", .vstr "body")]]⟩

/-- Text-unit table of the same shape as `TdocC6`. -/
def TsrcC6 : Table :=
  ⟨["id", "short_id", "text"], [],
   [[("id", .vstr "xyz"), ("short_id", .vstr "7"), ("text", .vstr "body")]]⟩

/-- Storage with only the text-units table present. -/
def storageC3 : String → Option Table := fun n =>
  if n == "text_units" then some TsrcC6 else none

/-- The dataframe dictionary `load_context` builds over `storageC3`:
every required key present, the missing tables recorded as `None`. -/
def dataC3 : DataMap :=
  resolve_output_files_single storageC3 loadContextOutputList loadContextOptionalList

/-- A trivial oracle bundle (externals return empty lists). -/
def trivOracles : Oracles := ⟨.ret [], .ok [], .ok [], .ok []⟩

/-! # Theorems -/

/-! ## Helper lemmas about `insertRef` and the reference fold -/

lemma insertRef_keys (acc : List (String × List String)) (k i : String) :
    (insertRef acc k i).map Prod.fst =
      if k ∈ acc.map Prod.fst then acc.map Prod.fst else acc.map Prod.fst ++ [k] := by
  induction acc with
  | nil => simp [insertRef]
  | cons hd tl ih =>
    by_cases hk : hd.1 = k
    · simp [insertRef, hk]
    · have hk2 : ¬ k = hd.1 := fun h => hk h.symm
      simp only [insertRef, if_neg hk, List.map_cons, List.mem_cons]
      rw [ih]
      by_cases hmem : k ∈ tl.map Prod.fst
      · simp [hmem, hk2]
      · simp [hmem, hk2]

lemma insertRef_keys_nodup (acc : List (String × List String)) (k i : String)
    (h : (acc.map Prod.fst).Nodup) : ((insertRef acc k i).map Prod.fst).Nodup := by
  rw [insertRef_keys]
  split
  · exact h
  · next hmem =>
      refine List.Nodup.append h (List.nodup_singleton k) ?_
      intro x hx hxk
      rw [List.mem_singleton] at hxk
      subst hxk
      exact hmem hx

lemma insertRef_vals_nodup (acc : List (String × List String)) (k i : String)
    (h : ∀ p ∈ acc, p.2.Nodup) : ∀ p ∈ insertRef acc k i, p.2.Nodup := by
  induction acc with
  | nil =>
    intro p hp
    simp [insertRef] at hp
    simp [hp]
  | cons hd tl ih =>
    intro p hp
    by_cases hk : hd.1 = k
    · simp only [insertRef, if_pos hk, List.mem_cons] at hp
      rcases hp with hp | hp
      · subst hp
        by_cases hi : i ∈ hd.2
        · simpa [hi] using h hd (by simp)
        · simp only [if_neg hi]
          exact List.Nodup.append (h hd (by simp)) (List.nodup_singleton i)
            (by simpa using hi)
      · exact h p (by simp [hp])
    · simp only [insertRef, if_neg hk, List.mem_cons] at hp
      rcases hp with hp | hp
      · exact h p (by simp [hp])
      · exact ih (fun q hq => h q (by simp [hq])) p hp

lemma foldl_insertRef_keys (ps : List (String × String)) :
    ∀ acc : List (String × List String),
      ((ps.foldl (fun a p => insertRef a p.1 p.2) acc).map Prod.fst) =
        ps.foldl (fun ks p => if p.1 ∈ ks then ks else ks ++ [p.1]) (acc.map Prod.fst) := by
  induction ps with
  | nil => intro acc; rfl
  | cons hd tl ih =>
    intro acc
    simp only [List.foldl_cons]
    rw [ih, insertRef_keys]

lemma foldl_insertRef_keys_nodup (ps : List (String × String)) :
    ∀ acc : List (String × List String), (acc.map Prod.fst).Nodup →
      ((ps.foldl (fun a p => insertRef a p.1 p.2) acc).map Prod.fst).Nodup := by
  induction ps with
  | nil => intro acc h; exact h
  | cons hd tl ih =>
    intro acc h
    simp only [List.foldl_cons]
    exact ih _ (insertRef_keys_nodup acc hd.1 hd.2 h)

lemma foldl_insertRef_vals_nodup (ps : List (String × String)) :
    ∀ acc : List (String × List String), (∀ p ∈ acc, p.2.Nodup) →
      ∀ p ∈ ps.foldl (fun a p => insertRef a p.1 p.2) acc, p.2.Nodup := by
  induction ps with
  | nil => intro acc h; exact h
  | cons hd tl ih =>
    intro acc h
    simp only [List.foldl_cons]
    exact ih _ (insertRef_vals_nodup acc hd.1 hd.2 h)

/-! ## Claims about the citation parser and link renderer -/

/-- C2. The citation extractor satisfies the four spec test vectors:
`"See [Data: Sources (15, 16), Reports (1)]"` extracts sources 15, 16 and
report 1; `"[Data: Entities(5, 7, +more)]"` extracts entities 5 and 7 with
no id from the `+more` suffix; text with no bracketed marker extracts the
empty mapping; `"[Data: NotAKind]"` extracts the empty mapping. -/
theorem C2_citation_test_vectors :
    get_reference "See [Data: Sources (15, 16), Reports (1)]" =
      [("sources", ["15", "16"]), ("reports", ["1"])] ∧
    get_reference "[Data: Entities(5, 7, +more)]" = [("entities", ["5", "7"])] ∧
    get_reference "The answer has no citations." = [] ∧
    get_reference "[Data: NotAKind]" = [] := by
  refine ⟨?_, ?_, ?_, ?_⟩ <;> decide

/-- C10. For every answer text, the extracted mapping deduplicates ids per
kind (set semantics), its kind keys are pairwise distinct, and the kinds
appear in first-occurrence order of the scan (`firstKeys` of the scanned
pair sequence). -/
theorem C10_dedup_and_first_occurrence_order (text : String) :
    ((get_reference text).map Prod.fst).Nodup ∧
    (∀ p ∈ get_reference text, p.2.Nodup) ∧
    (get_reference text).map Prod.fst = firstKeys ((refPairs text).map Prod.fst) := by
  refine ⟨?_, ?_, ?_⟩
  · exact foldl_insertRef_keys_nodup (refPairs text) [] (by simp)
  · exact foldl_insertRef_vals_nodup (refPairs text) [] (by simp)
  · rw [get_reference, foldl_insertRef_keys, firstKeys, List.foldl_map]
    rfl

/-- C10 witness: the theorem applied to the first spec vector, discharging
the membership hypothesis at the `sources` entry. -/
theorem C10_witness : (["15", "16"] : List String).Nodup :=
  (C10_dedup_and_first_occurrence_order "See [Data: Sources (15, 16), Reports (1)]").2.1
    ("sources", ["15", "16"]) (by decide)

lemma foldl_append_one {α β : Type} (f : α → β) (l : List α) :
    ∀ acc : List β, l.foldl (fun a v => a ++ [f v]) acc = acc ++ l.map f := by
  induction l with
  | nil => intro acc; simp
  | cons hd tl ih => intro acc; simp [ih]

lemma refLinesList_eq_flatMap (refBase index_id : String) (data : List (String × List String)) :
    refLinesList refBase index_id data =
      data.flatMap (fun p => p.2.map (refLine (refBase ++ "/v1/references") index_id p.1)) := by
  rw [refLinesList]
  have hstep : ∀ (l : List (String × List String)) (acc : List String),
      l.foldl (fun acc2 p => p.2.foldl
          (fun a v => a ++ [refLine (refBase ++ "/v1/references") index_id p.1 v]) acc2) acc =
        acc ++ l.flatMap (fun p => p.2.map (refLine (refBase ++ "/v1/references") index_id p.1)) := by
    intro l
    induction l with
    | nil => intro acc; simp
    | cons hd tl ih =>
      intro acc
      simp only [List.foldl_cons, List.flatMap_cons]
      rw [foldl_append_one, ih, List.append_assoc]
  simpa using hstep data []

set_option maxRecDepth 8192

/-- C9. The link renderer emits exactly one line per (kind, id) pair, each
of the `refLine` format pointing at
`{base}/v1/references/{model}/{kind}/{id}`; in particular for the mapping
`sources -> {15}` and model `local` the output is a single line ending in
`/v1/references/local/sources/15)`. -/
theorem C9_link_rendering :
    (∀ (refBase index_id : String) (data : List (String × List String)),
      refLinesList refBase index_id data =
        data.flatMap (fun p => p.2.map (refLine (refBase ++ "/v1/references") index_id p.1))) ∧
    (∀ (refBase index_id : String) (data : List (String × List String)),
      (refLinesList refBase index_id data).length = (data.map (fun p => p.2.length)).sum) ∧
    generate_ref_links "http://127.0.0.1:20213" [("sources", ["15"])] "local" =
      "[^Data:Sources(15)]: [Sources: 15](http://127.0.0.1:20213/v1/references/local/sources/15)" ∧
    ("/v1/references/local/sources/15)".data.isSuffixOf
      "[^Data:Sources(15)]: [Sources: 15](http://127.0.0.1:20213/v1/references/local/sources/15)".data) = true := by
  refine ⟨refLinesList_eq_flatMap, ?_, ?_, ?_⟩
  · intro refBase index_id data
    rw [refLinesList_eq_flatMap]
    simp [List.length_flatMap, Function.comp_def, List.length_map]
  · decide
  · decide

/-! ## Claims about the record-resolution layer -/

/-- C1 counterexample. The claim fails for the entity kind: `TceC1` loads
fine (the id column is present and the sole row does not match the
requested id `5`), yet `get_entity` returns the `error`-tagged placeholder
— the same `id = "error"` tag as the absent-table case — because the
adapter loop completes without an exception for a numeric id and the final
`raise ValueError` is converted by the outer handler into the error
placeholder.  The not-found and error outcomes are therefore not
distinguishable. -/
theorem C1_counterexample :
    strColMatches TceC1 "id" "5" = [] ∧
    get_entity (.ret []) (some TceC1) "5" = errorEntity "Not Found entity id 5" ∧
    (get_entity (.ret []) (some TceC1) "5").id = "error" ∧
    (get_entity (.ret []) none "5").id = "error" ∧
    "error" ≠ "not_found" := by
  refine ⟨?_, ?_, ?_, ?_, ?_⟩ <;> decide

/-- C1 amended. An absent or unreadable table yields the `error` placeholder
for every record kind.  A loaded table with no matching row yields the
distinct `not_found` placeholder for document lookups; for the other kinds
it does so only when the adapter fallback raises internally (e.g. a
non-numeric requested id), while an id for which the adapter comparison
loop completes without an exception yields the `error` placeholder
carrying a not-found diagnostic, indistinguishable by tag from the
unreadable-table case. -/
theorem C1_amended :
    (∀ (o : EntOracle) (id : String), (get_entity o none id).id = "error") ∧
    (∀ (o : ExtResult (List TextUnit)) (id : String), (get_source o none id).id = "error") ∧
    (∀ (o : ExtResult (List CommunityReport)) (id : String), (get_report o none id).id = "error") ∧
    (∀ (o : ExtResult (List Relationship)) (id : String), (get_relationship o none id).id = "error") ∧
    (∀ id : String, (get_document none id).id = "error") ∧
    (∀ (t : Table) (id : String), "id" ∈ t.cols → strColMatches t "id" id = [] →
      get_document (some t) id = notFoundDocument id) ∧
    (get_entity (.ret []) (some TceC1) "5").id = "error" ∧
    (get_entity (.ret []) (some TceC1) "zzz").id = "not_found" := by
  refine ⟨fun o id => rfl, fun o id => rfl, fun o id => rfl, fun o id => rfl, fun id => rfl,
    ?_, by decide, by decide⟩
  intro t id hid hmatch
  simp [get_document, getDocumentBody, hid, hmatch, Bind.bind, Except.bind, pure, Except.pure]

/-- C1 amended witness: the document conjunct applied at the concrete
table `TdocC1` and id `5`. -/
theorem C1_amended_witness : get_document (some TdocC1) "5" = notFoundDocument "5" :=
  C1_amended.2.2.2.2.2.1 TdocC1 "5" (by decide) (by decide)

/-- C4. Record resolution is total at the boundary: for each of the five
record kinds, any oracle behaviour of the external adapters, any table
state (including an absent file) and any requested id string,
`get_index_data` returns a record of the requested kind — the error path
is taken only for an unknown datatype name, so no exception reaches the
caller for a supported kind. -/
theorem C4_resolution_total (os : Oracles) (tableOf : String → Option Table)
    (datatype id : String)
    (h : datatype ∈ ["documents", "sources", "entities", "reports", "relationships"]) :
    ∃ r, get_index_data os tableOf datatype id = .ok r ∧ recKind r = datatype := by
  simp only [List.mem_cons, List.mem_singleton, List.not_mem_nil, or_false] at h
  rcases h with h | h | h | h | h <;> subst h
  · exact ⟨.doc (get_document (tableOf "documents") id), rfl, rfl⟩
  · exact ⟨.src (get_source os.srcO (tableOf "text_units") id), rfl, rfl⟩
  · exact ⟨.ent (get_entity os.entO (tableOf "entities") id), rfl, rfl⟩
  · exact ⟨.rep (get_report os.repO (tableOf "community_reports") id), rfl, rfl⟩
  · exact ⟨.rel (get_relationship os.relO (tableOf "relationships") id), rfl, rfl⟩

/-- C4 witness: resolution against a directory with no readable tables
still produces an entity-kind record. -/
theorem C4_witness :
    ∃ r, get_index_data trivOracles (fun _ => none) "entities" "1" = .ok r ∧
      recKind r = "entities" :=
  C4_resolution_total trivOracles (fun _ => none) "entities" "1" (by decide)

/-- C5 counterexample. In `TrepC5` the requested id `1` matches no id
column value and is a valid zero-based row offset (`1 < 2`), the direct
strategies all fail (so the claimed positional fallback would pick row 1),
yet `get_report` — here with the external adapter returning an empty list
— produces the error placeholder rather than the row at offset 1, because
`isinstance(id, int)` is false for the string ids of the public
interface. -/
theorem C5_counterexample :
    reportDirectRows TrepC5 "1" = [] ∧
    (1 : Nat) < TrepC5.rows.length ∧
    get_report (.ok []) (some TrepC5) "1" = errorReport "Not Found report id 1" "1" ∧
    errorReport "Not Found report id 1" "1" ≠ buildReportFromRow [("id", CellV.vstr "bbb")] "1" := by
  refine ⟨?_, ?_, ?_, ?_⟩ <;> decide

/-- C5 amended. The positional-index last resort of `get_report` is
guarded by `isinstance(id, int)`, which never holds for the string ids
arriving through the public lookup interface; consequently the direct
lookup performs exactly the four preceding strategies and the positional
fallback contributes nothing for any table and id. -/
theorem C5_amended :
    (∀ id : String, pyIsInstInt id = false) ∧
    (∀ (t : Table) (id : String), reportDirectRows t id = reportDirectRowsNoPos t id) := by
  refine ⟨fun _ => rfl, ?_⟩
  intro t id
  simp [reportDirectRows, reportDirectRowsNoPos, pyIsInstInt]

/-- C6 counterexample. The document table `TdocC6` carries a `short_id`
column and its sole row matches the requested id `7` by `short_id`, but
document resolution never consults `short_id`: it returns the `not_found`
placeholder straight after the exact id-column match fails. -/
theorem C6_counterexample :
    strColMatches TdocC6 "short_id" "7" ≠ [] ∧
    get_document (some TdocC6) "7" = notFoundDocument "7" ∧
    (notFoundDocument "7").id = "not_found" := by
  refine ⟨?_, ?_, ?_⟩ <;> decide

/-- C6 amended. After exact id-column matching fails, resolution consults a
`short_id` column (when present) before concluding not-found for the
entity, text-unit, report and relationship kinds — but not for documents:
document lookup matches only the `id` column and returns the `not_found`
placeholder without ever consulting `short_id`. -/
theorem C6_amended :
    (∀ (t : Table) (id : String), strColMatches t "id" id = [] →
      sourceDirectRows t id =
        if "short_id" ∈ t.cols then strColMatches t "short_id" id else []) ∧
    (∀ (t : Table) (id : String), strColMatches t "id" id = [] →
      relationshipDirectRows t id =
        if "short_id" ∈ t.cols then strColMatches t "short_id" id else []) ∧
    (∀ (t : Table) (id : String), strColMatches t "id" id = [] →
      intMatchStep t "id" id = [] → "short_id" ∈ t.cols →
      strColMatches t "short_id" id ≠ [] →
      entityDirectRows t id = strColMatches t "short_id" id) ∧
    (∀ (t : Table) (id : String), strColMatches t "id" id = [] →
      intMatchStep t "id" id = [] → "short_id" ∈ t.cols →
      strColMatches t "short_id" id ≠ [] →
      reportDirectRows t id = strColMatches t "short_id" id) ∧
    (∀ (t : Table) (id : String), "id" ∈ t.cols → strColMatches t "id" id = [] →
      get_document (some t) id = notFoundDocument id) := by
  refine ⟨?_, ?_, ?_, ?_, ?_⟩
  · intro t id h
    simp [sourceDirectRows, h]
  · intro t id h
    simp [relationshipDirectRows, h]
  · intro t id h1 h2 hcol hne
    simp [entityDirectRows, h1, h2, hcol, hne]
  · intro t id h1 h2 hcol hne
    simp [reportDirectRows, h1, h2, hcol, hne]
  · intro t id hid hmatch
    simp [get_document, getDocumentBody, hid, hmatch, Bind.bind, Except.bind, pure, Except.pure]

/-- C6 amended witness: the text-unit conjunct applied at the concrete
table `TsrcC6` and id `7` (where the `short_id` match succeeds). -/
theorem C6_amended_witness :
    sourceDirectRows TsrcC6 "7" =
      if "short_id" ∈ TsrcC6.cols then strColMatches TsrcC6 "short_id" "7" else [] :=
  C6_amended.1 TsrcC6 "7" (by decide)

/-! ## Claims about the dispatcher and the streaming path -/

/-- C3. With the dataframe dictionary that `load_context` builds when only
the text-units table is present in storage — every required key present,
the missing entities/communities/community-reports recorded as `None` —
a dispatcher pinned to the `global` strategy still selects the global
branch (its condition tests only key membership, unlike the `local`/
`drift` branches), so the basic fallback is never reached even though
text-chunks are available; with `None` tables the global api call fails
and the dispatcher returns the error envelope instead of a basic-search
answer. -/
theorem C3_global_misses_basic_fallback :
    getVal dataC3 "entities" = none ∧
    getVal dataC3 "communities" = none ∧
    getVal dataC3 "community_reports" = none ∧
    keyNotNone dataC3 "text_units" = true ∧
    selectSearchBranch INDEX_GLOBAL dataC3 = SearchBranch.globalB ∧
    SearchBranch.globalB ≠ SearchBranch.basicB := by
  refine ⟨?_, ?_, ?_, ?_, ?_, ?_⟩ <;> decide

/-- The token loop of `wrapper_astream_search` from any `token_index ≥ 1`:
it yields one chunk per remaining token with consecutive indices and
accumulates every remaining token into `full_response`. -/
lemma streamLoop_succ (toks : List String) :
    ∀ (i : Nat) (fr : String),
      streamLoop toks (i + 1) fr = (chunksFrom i toks, i + 1 + toks.length, fr ++ joinStr toks) := by
  induction toks with
  | nil => intro i fr; simp [streamLoop, chunksFrom, joinStr]
  | cons t rest ih =>
    intro i fr
    have h1 : streamLoop (t :: rest) (i + 1) fr =
        (SSEEvent.chunk i t none :: (streamLoop rest (i + 1 + 1) (fr ++ t)).1,
         (streamLoop rest (i + 1 + 1) (fr ++ t)).2) := rfl
    rw [h1, ih (i + 1) (fr ++ t)]
    simp only [Prod.mk.injEq, chunksFrom, joinStr, List.length_cons]
    refine ⟨by trivial, by omega, ?_⟩
    rw [String.append_assoc]

/-- Events produced by the token loop are content chunks, never the
terminal event. -/
lemma streamLoop_no_done (toks : List String) :
    ∀ (i : Nat) (fr : String), (streamLoop toks i fr).1.filter isDoneEvent = [] := by
  induction toks with
  | nil => intro i fr; simp [streamLoop]
  | cons t rest ih =>
    intro i fr
    by_cases hi : i = 0
    · subst hi
      simp only [streamLoop, if_pos rfl]
      exact ih 1 fr
    · simp only [streamLoop, if_neg hi, List.filter_cons]
      simp [isDoneEvent, ih]

/-- C7. In the streaming chat-completion path the first yielded token is
unconditionally discarded: the emitted content chunks are exactly one
chunk per token of `tokens.drop 1` (indices from 0) and the accumulated
`full_response` used for citation extraction is the concatenation of
`tokens.drop 1` only; in particular when the underlying stream yields a
single token the client receives no content chunk before the final
references chunk and the terminal event. -/
theorem C7_first_token_discarded (tokens : List String) (showRefs : Bool)
    (refBase model : String) :
    wrapper_astream_search tokens showRefs refBase model =
      chunksFrom 0 (tokens.drop 1) ++
        [SSEEvent.chunk tokens.length
          (streamFinalContent showRefs refBase model (joinStr (tokens.drop 1))) (some "stop"),
         SSEEvent.done] ∧
    ∀ t : String, wrapper_astream_search [t] showRefs refBase model =
      [SSEEvent.chunk 1 "" (some "stop"), SSEEvent.done] := by
  constructor
  · match tokens with
    | [] => rfl
    | t :: rest =>
      have h0 : streamLoop (t :: rest) 0 "" = streamLoop rest 1 "" := rfl
      rw [wrapper_astream_search, h0, streamLoop_succ rest 0 ""]
      simp [List.length_cons]
      omega
  · intro t
    rfl

/-- C8. Every streamed response ends with the terminal event: the event
list always has `done` as its last element and contains exactly one
`done`; and whenever the pinned strategy's branch is selected (i.e. the
dispatcher is not in the not-configured case) and the underlying api call
raises after yielding `toks`, the dispatcher's token sequence is exactly
`toks` followed by the single explanatory error token, terminating instead
of raising. -/
theorem C8_stream_termination (engine : String) (data : DataMap) (o : StreamOracle)
    (showRefs : Bool) (refBase model : String) :
    ((wrapper_astream_search (stream_search engine data o) showRefs refBase model).getLast? =
        some SSEEvent.done ∧
      ((wrapper_astream_search (stream_search engine data o) showRefs refBase
          model).filter isDoneEvent).length = 1) ∧
    (∀ (toks : List String) (msg : String),
      selectSearchBranch engine data ≠ SearchBranch.notConfigured →
      stream_search engine data ⟨toks, some msg⟩ = toks ++ [streamErrorToken msg]) := by
  constructor
  · constructor
    · rw [wrapper_astream_search]
      have h2 : ∀ (l : List SSEEvent) (a b : SSEEvent), l ++ [a, b] = (l ++ [a]) ++ [b] := by
        intro l a b
        rw [List.append_assoc]
        rfl
      rw [h2, List.getLast?_concat]
    · rw [wrapper_astream_search, List.filter_append, streamLoop_no_done]
      simp [isDoneEvent]
  · intro toks msg hne
    rw [stream_search]
    match hsel : selectSearchBranch engine data with
    | .notConfigured => exact absurd hsel hne
    | .globalB => rfl
    | .localB => rfl
    | .driftB => rfl
    | .basicB => rfl

/-- C8 witness: the error-path conjunct applied to the `global` engine over
the `dataC3` dictionary (whose branch is `globalB`, not not-configured). -/
theorem C8_witness :
    stream_search INDEX_GLOBAL dataC3 ⟨["x"], some "boom"⟩ =
      ["x", streamErrorToken "boom"] :=
  (C8_stream_termination INDEX_GLOBAL dataC3 ⟨["x"], some "boom"⟩ true "b" "m").2
    ["x"] "boom" (by decide)
